import Mathlib

/-!
Shallow embedding of the wakili front end (src/src/wakili_frontend/index.js).

The file models, directly from the JavaScript source:
  - the `toggleButton` busy/idle helper and the button DOM state it mutates;
  - the four user-triggered command handlers (get-advice, generate-document,
    download-document, save-document, update-name) as pure state transformers
    that also emit a trace of observable effects (remote calls, alerts,
    console logging, file downloads), with the remote response supplied as an
    oracle parameter;
  - the profile renderer (`loadUserProfile`) and the document-list renderer
    (`loadUserDocuments`), including the relevant fragment of ECMAScript
    semantics (BigInt mixing in `/`, method lookup on array values) needed to
    settle whether they throw;
  - the session bootstrap (`handleAuthenticated`, `initII`, the login click
    handler and `window.onload`) as state transformers over the two view
    sections, with throw-points (agent creation, root-key fetch, login)
    supplied as oracles.

Stateful JavaScript becomes explicit state passing; `async` control flow is
sequential (the source awaits every call); thrown exceptions become explicit
error propagation mirroring the source's try/catch/finally structure.
-/

namespace Wakili

/-! ## A fragment of ECMAScript semantics

Only what the source exercises: division where a BigInt operand may be mixed
with a String, and method lookup on a JavaScript array value. -/

/-- JavaScript values appearing as operands of `/` in index.js: strings and
BigInts.  (`profile.last_active` and `1000000n` are BigInts;
`docId.split('_')[2]` is a String.) -/
inductive JsVal
  | str (s : String)
  | bigint (n : Int)
deriving DecidableEq, Repr

/-- ECMAScript division restricted to the operand shapes occurring in
index.js.  BigInt `/` BigInt is truncating BigInt division; mixing a BigInt
with a non-BigInt operand throws a TypeError (ECMAScript `ApplyStringOrNumericBinaryOperator`
step 3: if Type(lnum) is not Type(rnum), throw a TypeError).  The
number/number and string coercion cases never occur in the source and are not
modelled. -/
def jsDiv : JsVal → JsVal → Except String Int
  | .bigint a, .bigint b => .ok (Int.tdiv a b)
  | _, _ => .error "TypeError: Cannot mix BigInt and other types, use explicit conversions"

/-- ECMAScript `String.prototype.trim`: strip leading and trailing
whitespace.  Written structurally over the character list so that concrete
instances evaluate inside the kernel. -/
def jsTrim (s : String) : String :=
  ⟨((s.data.dropWhile Char.isWhitespace).reverse.dropWhile Char.isWhitespace).reverse⟩

/-- Splitting a character list at every occurrence of a separator character;
the accumulator holds the current (reversed) chunk. -/
def splitOnCharAux (sep : Char) : List Char → List Char → List (List Char)
  | [], acc => [acc.reverse]
  | c :: cs, acc =>
    if c = sep then acc.reverse :: splitOnCharAux sep cs []
    else splitOnCharAux sep cs (c :: acc)

/-- ECMAScript `String.prototype.split` with a one-character separator, as in
`docId.split('_')`.  Written structurally so that concrete instances evaluate
inside the kernel. -/
def jsSplit (s : String) (sep : Char) : List String :=
  (splitOnCharAux sep s.data []).map fun l => ⟨l⟩

/-- Method names of ECMAScript `Array.prototype` (the ones a candid `opt`
value, decoded as a JavaScript array, actually has).  `unwrap_or` is a Rust
`Option` method and is not among them, so accessing it on an array yields
`undefined`. -/
def jsArrayMethods : List String :=
  ["at", "concat", "copyWithin", "entries", "every", "fill", "filter", "find",
   "findIndex", "findLast", "findLastIndex", "flat", "flatMap", "forEach",
   "includes", "indexOf", "join", "keys", "lastIndexOf", "map", "pop", "push",
   "reduce", "reduceRight", "reverse", "shift", "slice", "some", "sort",
   "splice", "toString", "unshift", "values"]

/-- The call `profile.name.unwrap_or('User')` from line 226 of index.js.
`profile.name` is the candid `opt text`, decoded by agent-js as a JavaScript
array (the same function reads `profile.name.length` and `profile.name[0]` at
lines 232-234).  Arrays have no `unwrap_or` method, so the property access
yields `undefined` and calling it throws a TypeError.  The `.ok` branch is
what the call would return if the method existed (first element, or the
default when absent). -/
def unwrap_or (name : List String) (dflt : String) : Except String String :=
  if "unwrap_or" ∈ jsArrayMethods then .ok (name.headD dflt)
  else .error "TypeError: profile.name.unwrap_or is not a function"

/-! ## Buttons and `toggleButton` -/

/-- The innerHTML of a trigger button: either its original markup with visible
label text, or the busy markup `<i class="fas fa-spinner fa-spin me-2"></i>`
followed by label text (the spinner icon element contributes no text). -/
inductive BtnHtml
  | plain (label : String)
  | busy (label : String)
deriving DecidableEq, Repr

/-- DOM `textContent` of the button markup: the spinner icon has no text
content, so both shapes expose just the label. -/
def BtnHtml.textContent : BtnHtml → String
  | .plain s => s
  | .busy s => s

/-- A trigger button's DOM state: its `disabled` flag and `innerHTML`. -/
structure Button where
  disabled : Bool
  innerHTML : BtnHtml
deriving DecidableEq, Repr

/-- Direct transcription of `toggleButton` (index.js lines 312-321):
`originalText` is read from `button.innerHTML` at the start of THIS call, so
in the `isLoading = false` branch it is the current (busy) markup that is
written back, not the markup from before the matching `isLoading = true`
call. -/
def toggleButton (button : Button) (isLoading : Bool) : Button :=
  let originalText := button.innerHTML
  if isLoading then
    { disabled := true, innerHTML := .busy (jsTrim button.innerHTML.textContent) }
  else
    { disabled := false, innerHTML := originalText }

/-! ## Requests, effects and application state -/

/-- The request record built by the advice and document handlers
(index.js lines 99-104 and 138-143): `{prompt, document_type, context,
is_confidential}`, with `null` modelled as `none`. -/
structure AdviceRequest where
  prompt : String
  document_type : Option String
  context : Option String
  is_confidential : Bool
deriving DecidableEq, Repr

/-- Observable effects emitted by the handlers, in program order: remote actor
calls (named after the canister methods), alerts, console logging and the
client-side file download. -/
inductive Effect
  | generate_legal_advice (req : AdviceRequest)
  | generate_legal_document (req : AdviceRequest)
  | get_user_profile
  | get_user_documents
  | update_user_name (name : String)
  | get_document (id : String)
  | fetchRootKey
  | alert (message : String) (kind : String)
  | consoleError (context : String)
  | downloadFile (filename : String) (content : String)
deriving DecidableEq, Repr

/-- Recognizer for the advice remote call, used to count calls in a trace. -/
def Effect.isAdviceCall : Effect → Bool
  | .generate_legal_advice _ => true
  | _ => false

/-- Recognizer for the document-generation remote call. -/
def Effect.isDocumentCall : Effect → Bool
  | .generate_legal_document _ => true
  | _ => false

/-- Recognizer for any remote actor call (an effect that reaches the network;
alerts, console logging and the synthetic download stay local). -/
def Effect.isRemoteCall : Effect → Bool
  | .generate_legal_advice _ => true
  | .generate_legal_document _ => true
  | .get_user_profile => true
  | .get_user_documents => true
  | .update_user_name _ => true
  | .get_document _ => true
  | .fetchRootKey => true
  | _ => false

/-- The mutable application state the command handlers touch: the four trigger
buttons, `currentDocument`, the `documentOutput` section's `d-none` class and
the `responseArea` markup. -/
structure AppState where
  getAdviceBtn : Button
  generateDocBtn : Button
  saveDocBtn : Button
  updateNameBtn : Button
  currentDocument : Option String
  documentOutputHidden : Bool
  responseArea : Option String
deriving DecidableEq, Repr

/-- Transcription of `displayResponse` (index.js lines 213-220): newline to
`<br>`, then the three fixed marker tokens wrapped in `<strong>`, by global
literal replacement, in source order.  (The `scrollIntoView` call has no
modelled state.) -/
def displayResponse (text : String) : String :=
  (((text.replace "\n" "<br>").replace
      "IMPORTANT:" "<strong>IMPORTANT:</strong>").replace
      "NOTE:" "<strong>NOTE:</strong>").replace
      "DISCLAIMER:" "<strong>DISCLAIMER:</strong>"

/-! ## The get-advice command (index.js lines 86-122) -/

/-- Form state read by the advice handler: `advicePrompt`, `adviceContext` and
`confidentialCheck`.  JavaScript input values are strings; the empty string is
the only falsy one. -/
structure AdviceInputs where
  prompt : String
  context : String
  isConfidential : Bool
deriving DecidableEq, Repr

/-- Oracle for `await actor.generate_legal_advice(request)`: either the call
resolves to `{status, response}` or it rejects/throws with a message (empty
string models a thrown value whose `message` is falsy). -/
inductive AdviceOutcome
  | ok (status : String) (response : String)
  | thrown (msg : String)
deriving DecidableEq, Repr

/-- The getAdviceBtn click handler.  Empty prompt: warning alert, return
before any call or button change.  Otherwise: toggle busy, build the request,
call the actor; a tagged success renders the response, clears
`currentDocument` and hides `documentOutput`; a non-success tag is thrown as
`new Error(response)` whose `message` is `String(response) = "[object
Object]"`; any catch renders `Error: ${error.message || 'Failed to get legal
advice'}`; the finally block toggles idle and then invokes `loadUserProfile()`
(recorded as the trailing `get_user_profile` call effect). -/
def getAdviceClick (inp : AdviceInputs) (outcome : AdviceOutcome) (st : AppState) :
    AppState × List Effect :=
  if inp.prompt = "" then
    (st, [.alert "Please enter your legal question" "warning"])
  else
    let req : AdviceRequest :=
      { prompt := inp.prompt
        document_type := none
        context := if inp.context = "" then none else some inp.context
        is_confidential := inp.isConfidential }
    let busy := { st with getAdviceBtn := toggleButton st.getAdviceBtn true }
    let finish := fun (s : AppState) (effs : List Effect) =>
      ({ s with getAdviceBtn := toggleButton s.getAdviceBtn false },
        effs ++ [Effect.get_user_profile])
    match outcome with
    | .ok status resp =>
      if status = "success" then
        finish { busy with
                  responseArea := some (displayResponse resp)
                  currentDocument := none
                  documentOutputHidden := true }
          [.generate_legal_advice req]
      else
        finish { busy with
                  responseArea := some (displayResponse "Error: [object Object]") }
          [.generate_legal_advice req, .consoleError "Error getting legal advice:"]
    | .thrown msg =>
      finish { busy with
                responseArea := some (displayResponse
                  ("Error: " ++ (if msg = "" then "Failed to get legal advice" else msg))) }
        [.generate_legal_advice req, .consoleError "Error getting legal advice:"]

/-! ## The generate-document command (index.js lines 124-161) -/

/-- Form state read by the document handler: `docType`, `docPrompt`,
`docContext` and `docConfidentialCheck`. -/
structure DocInputs where
  docType : String
  prompt : String
  context : String
  isConfidential : Bool
deriving DecidableEq, Repr

/-- Oracle for `await actor.generate_legal_document(request)`: resolves to
`{status, document}` (an empty `document` models a falsy/absent field) or
rejects with a message. -/
inductive DocOutcome
  | ok (status : String) (document : String)
  | thrown (msg : String)
deriving DecidableEq, Repr

/-- The generateDocBtn click handler.  Empty prompt: warning alert, return.
Otherwise: toggle busy, call the actor with `document_type` set to the raw
`docType` string; on `status === 'success' && response.document` render the
document, store it as `currentDocument` and reveal `documentOutput`;
otherwise `throw new Error('Document generation failed')`, caught and
rendered; finally toggle idle then invoke `loadUserProfile()`. -/
def generateDocClick (inp : DocInputs) (outcome : DocOutcome) (st : AppState) :
    AppState × List Effect :=
  if inp.prompt = "" then
    (st, [.alert "Please describe the document you need" "warning"])
  else
    let req : AdviceRequest :=
      { prompt := inp.prompt
        document_type := some inp.docType
        context := if inp.context = "" then none else some inp.context
        is_confidential := inp.isConfidential }
    let busy := { st with generateDocBtn := toggleButton st.generateDocBtn true }
    let finish := fun (s : AppState) (effs : List Effect) =>
      ({ s with generateDocBtn := toggleButton s.generateDocBtn false },
        effs ++ [Effect.get_user_profile])
    match outcome with
    | .ok status doc =>
      if status = "success" ∧ doc ≠ "" then
        finish { busy with
                  responseArea := some (displayResponse doc)
                  currentDocument := some doc
                  documentOutputHidden := false }
          [.generate_legal_document req]
      else
        finish { busy with
                  responseArea := some (displayResponse "Error: Document generation failed") }
          [.generate_legal_document req, .consoleError "Error generating document:"]
    | .thrown msg =>
      finish { busy with
                responseArea := some (displayResponse
                  ("Error: " ++ (if msg = "" then "Failed to generate document" else msg))) }
        [.generate_legal_document req, .consoleError "Error generating document:"]

/-! ## Download, save and update-name commands (index.js lines 163-210) -/

/-- The downloadDocBtn click handler: with no `currentDocument` it returns at
once (no call, no alert, no state change); otherwise it materializes the text
as `legal_document_<ISO-date>.txt` via a synthetic anchor click.  `today` is
`new Date().toISOString().slice(0,10)`. -/
def downloadDocClick (today : String) (st : AppState) : AppState × List Effect :=
  match st.currentDocument with
  | none => (st, [])
  | some doc =>
    (st, [.downloadFile ("legal_document_" ++ today ++ ".txt") doc])

/-- The saveDocBtn click handler: with no `currentDocument` it returns at
once; otherwise it toggles busy, invokes `loadUserDocuments()` (recorded as
the `get_user_documents` call effect), shows the success alert, and in the
finally block toggles idle.  Nothing in the try block awaits, so the catch
branch is unreachable. -/
def saveDocClick (st : AppState) : AppState × List Effect :=
  match st.currentDocument with
  | none => (st, [])
  | some _ =>
    let busy := { st with saveDocBtn := toggleButton st.saveDocBtn true }
    ({ busy with saveDocBtn := toggleButton busy.saveDocBtn false },
      [.get_user_documents, .alert "Document saved successfully!" "success"])

/-- Oracle for `await actor.update_user_name(name)`. -/
inductive UpdateOutcome
  | ok
  | thrown (msg : String)
deriving DecidableEq, Repr

/-- The updateNameBtn click handler: trims the input, rejects the empty
result with a warning; otherwise toggles busy, calls `update_user_name`, on
success invokes `loadUserProfile()` and shows the success alert, on a thrown
error logs and shows the danger alert, and finally toggles idle. -/
def updateNameClick (inputValue : String) (outcome : UpdateOutcome) (st : AppState) :
    AppState × List Effect :=
  let name := jsTrim inputValue
  if name = "" then
    (st, [.alert "Please enter a name" "warning"])
  else
    let busy := { st with updateNameBtn := toggleButton st.updateNameBtn true }
    let idle := { busy with updateNameBtn := toggleButton busy.updateNameBtn false }
    match outcome with
    | .ok =>
      (idle, [.update_user_name name, .get_user_profile,
              .alert "Name updated successfully!" "success"])
    | .thrown _ =>
      (idle, [.update_user_name name, .consoleError "Error updating name:",
              .alert "Failed to update name" "danger"])

/-! ## The profile renderer (index.js lines 222-238) -/

/-- The shape of `await actor.get_user_profile()`: candid
`{name : opt text, document_count : nat, last_active : int/nat (BigInt)}`,
with the `opt` decoded as a JavaScript array. -/
structure UserProfile where
  name : List String
  document_count : Nat
  last_active : Int
deriving DecidableEq, Repr

/-- The DOM nodes `loadUserProfile` writes: `userName`, `userStats`,
`lastActive` (kept as the computed millisecond value; `formatDate` is
locale-dependent rendering of that value) and the `userNameInput` field. -/
structure ProfileView where
  userName : String
  userStats : String
  lastActiveMs : Int
  nameInput : String
deriving DecidableEq, Repr

/-- The body of `loadUserProfile`'s try block, statement by statement:
`profile.name.unwrap_or('User')` (which throws, see `unwrap_or`), the stats
string, `Number(profile.last_active / 1000000n)` and the conditional name
input update.  Throws propagate as `.error`; the first statement already
throws, so on error no display was updated. -/
def renderUserProfile (p : UserProfile) (currentInput : String) :
    Except String ProfileView := do
  let n ← unwrap_or p.name "User"
  let stats := toString p.document_count ++ " documents generated"
  let ms ← jsDiv (.bigint p.last_active) (.bigint 1000000)
  pure { userName := n
         userStats := stats
         lastActiveMs := ms
         nameInput := if p.name.length > 0 then p.name.headD "" else currentInput }

/-- The whole `loadUserProfile`: its catch block only logs to the console, so
on a throw every display keeps its previous content. -/
def loadUserProfile (p : UserProfile) (v : ProfileView) : ProfileView :=
  match renderUserProfile p v.nameInput with
  | .ok v2 => v2
  | .error _ => v

/-! ## The document-list renderer (index.js lines 240-300)

JavaScript strings are modelled as `List Char` here so that the
`substring(0, 100)` truncation is literal `List.take`. -/

/-- The preview expression at line 256:
`content.length > 100 ? content.substring(0, 100) + '...' : content`. -/
def docPreview (content : List Char) : List Char :=
  if content.length > 100 then content.take 100 ++ "...".toList else content

/-- What one rendered document card would carry: the heading
`docId.split('_')[1]`, the date value `Number(docId.split('_')[2] / 1000000n)`
in milliseconds, and the preview. -/
structure DocEntry where
  label : String
  dateMs : Int
  preview : List Char
deriving DecidableEq, Repr

/-- One iteration of the `docs.forEach(([docId, content]) => ...)` body, in
statement order: the preview (line 256), then
`new Date(Number(docId.split('_')[2] / 1000000n))` (line 257) — where
`docId.split('_')[2]` is a String and `1000000n` a BigInt, so the division
throws — then the card markup using `docId.split('_')[1]`. -/
def renderDocEntry (docId : String) (content : List Char) : Except String DocEntry := do
  let preview := docPreview content
  let ms ← jsDiv (.str ((jsSplit docId '_').getD 2 "")) (.bigint 1000000)
  pure { label := (jsSplit docId '_').getD 1 ""
         dateMs := ms
         preview := preview }

/-- What the `documentsList` container holds after `loadUserDocuments`. -/
inductive DocumentsListView
  | noDocuments
  | entries (es : List DocEntry)
  | errorPlaceholder
deriving DecidableEq, Repr

/-- The whole `loadUserDocuments` over an already-fetched list: empty list
renders the fixed placeholder; otherwise each document is rendered in order,
and a throw from any iteration reaches the catch block, which overwrites the
container with the error placeholder. -/
def loadUserDocuments (docs : List (String × List Char)) : DocumentsListView :=
  if docs.isEmpty then .noDocuments
  else
    match docs.mapM (fun d => renderDocEntry d.1 d.2) with
    | .ok es => .entries es
    | .error _ => .errorPlaceholder

/-! ## Session bootstrap (index.js lines 29-83 and 343-369) -/

/-- The view/session state the bootstrap mutates: the `d-none` classes of the
two sections, whether the two actors were created, and whether a login click
handler was installed. -/
structure BootState where
  authSectionHidden : Bool
  appContentHidden : Bool
  actorsCreated : Bool
  loginHandlerInstalled : Bool
deriving DecidableEq, Repr

/-- State of the page before any script runs: pre-authentication view
visible, app content hidden. -/
def bootState0 : BootState :=
  { authSectionHidden := false
    appContentHidden := true
    actorsCreated := false
    loginHandlerInstalled := false }

/-- Result of a bootstrap step that may throw: the state and effects
accumulated up to the throw are kept (JavaScript has no rollback). -/
structure BootResult where
  state : BootState
  effects : List Effect
  threw : Bool
deriving DecidableEq, Repr

/-- Transcription of `handleAuthenticated` (index.js lines 55-83): hide
`authSection` and reveal `appContent` FIRST, construct the agent, then — only
when `process.env.DFX_NETWORK !== 'ic'` — `await agent.fetchRootKey()`
(`rootKeyThrows` is the oracle for that await rejecting; the rejection
propagates to the caller with the view already flipped), then create the two
actors and kick off `loadUserProfile()` and `loadUserDocuments()`. -/
def handleAuthenticated (network : String) (rootKeyThrows : Bool) (st : BootState) :
    BootResult :=
  let st1 := { st with authSectionHidden := true, appContentHidden := false }
  if network ≠ "ic" then
    if rootKeyThrows then
      { state := st1, effects := [.fetchRootKey], threw := true }
    else
      { state := { st1 with actorsCreated := true }
        effects := [.fetchRootKey, .get_user_profile, .get_user_documents]
        threw := false }
  else
    { state := { st1 with actorsCreated := true }
      effects := [.get_user_profile, .get_user_documents]
      threw := false }

/-- Oracle for the throw-points of a bootstrap run: whether provider/agent
creation rejects, whether the user is already authenticated, whether the
root-key fetch rejects, and the configured `DFX_NETWORK`. -/
structure BootScenario where
  createAgentThrows : Bool
  isAuthenticated : Bool
  rootKeyThrows : Bool
  network : String
deriving DecidableEq, Repr

/-- Transcription of `initII` (index.js lines 29-53): inside one try/catch it
creates the Plug agent, and if already authenticated awaits
`handleAuthenticated`; otherwise it installs the login click handler and
returns.  The catch logs and shows the danger alert; it cannot undo the view
flip `handleAuthenticated` already performed. -/
def initII (sc : BootScenario) (st : BootState) : BootState × List Effect :=
  if sc.createAgentThrows then
    (st, [.consoleError "Error initializing Internet Identity:",
          .alert "Error initializing authentication. Please try again." "danger"])
  else if sc.isAuthenticated then
    let r := handleAuthenticated sc.network sc.rootKeyThrows st
    if r.threw then
      (r.state, r.effects ++
        [.consoleError "Error initializing Internet Identity:",
         .alert "Error initializing authentication. Please try again." "danger"])
    else
      (r.state, r.effects)
  else
    ({ st with loginHandlerInstalled := true }, [])

/-- The async login click handler installed by `initII` (lines 42-47) and by
the `window.onload` fallback (lines 355-362): `await authClient.login(); if
(await authClient.isAuthenticated()) await handleAuthenticated(...)`.  The
handler contains no try/catch and runs after `initII`/`window.onload` have
returned, so a rejection from `login()` — or from `handleAuthenticated` — is
an unhandled promise rejection: no alert is shown and nothing is rolled
back. -/
def loginClick (loginThrows authenticatedAfter : Bool) (network : String)
    (rootKeyThrows : Bool) (st : BootState) : BootState × List Effect :=
  if loginThrows then
    (st, [])
  else if authenticatedAfter then
    let r := handleAuthenticated network rootKeyThrows st
    (r.state, r.effects)
  else
    (st, [])

/-- Transcription of `window.onload` (index.js lines 343-369): with Plug
available it defers to `initII` (which never throws out); otherwise the same
shape inline with `AuthClient.create()` and the onload catch's own alert
text. -/
def windowOnload (plugAvailable : Bool) (sc : BootScenario) (st : BootState) :
    BootState × List Effect :=
  if plugAvailable then
    initII sc st
  else if sc.createAgentThrows then
    (st, [.consoleError "Auth error:",
          .alert "Authentication failed. Try refreshing or install Plug Wallet." "danger"])
  else if sc.isAuthenticated then
    let r := handleAuthenticated sc.network sc.rootKeyThrows st
    if r.threw then
      (r.state, r.effects ++
        [.consoleError "Auth error:",
         .alert "Authentication failed. Try refreshing or install Plug Wallet." "danger"])
    else
      (r.state, r.effects)
  else
    ({ st with loginHandlerInstalled := true }, [])

/-! ## Sample states for concrete evaluations -/

/-- An idle application state: all buttons enabled with their plain labels,
no current document, document output hidden, empty response area. -/
def stSample : AppState :=
  { getAdviceBtn := { disabled := false, innerHTML := .plain "Get Advice" }
    generateDocBtn := { disabled := false, innerHTML := .plain "Generate Document" }
    saveDocBtn := { disabled := false, innerHTML := .plain "Save" }
    updateNameBtn := { disabled := false, innerHTML := .plain "Update" }
    currentDocument := none
    documentOutputHidden := true
    responseArea := none }

/-- A profile view holding some earlier render, to observe that a throwing
`loadUserProfile` leaves it untouched. -/
def viewBefore : ProfileView :=
  { userName := "Previous Name"
    userStats := "2 documents generated"
    lastActiveMs := 1600000000000
    nameInput := "Previous Name" }

/-- Bootstrap scenario: Plug agent creation rejects. -/
def scAgentFail : BootScenario :=
  { createAgentThrows := true, isAuthenticated := false,
    rootKeyThrows := false, network := "local" }

/-- Bootstrap scenario: already authenticated on a local network, and the
root-key fetch rejects. -/
def scRootKeyFail : BootScenario :=
  { createAgentThrows := false, isAuthenticated := true,
    rootKeyThrows := true, network := "local" }

/-! ## Theorems for the claims -/

/-- C1: the claim says every trigger button is restored to its idle state on
every exit path, including its original label.  The code restores only the
`disabled` flag: `toggleButton(btn, false)` captures `originalText` from the
button's current — busy — innerHTML, so after a complete get-advice command
(shown here on both a successful and a thrown completion) the button is
re-enabled but still carries the spinner markup instead of its original
label. -/
theorem getAdvice_completion_keeps_spinner_label :
    ((getAdviceClick { prompt := "What is a lien?", context := "", isConfidential := true }
        (.ok "success" "Yes.") stSample).1.getAdviceBtn
      = { disabled := false, innerHTML := .busy "Get Advice" }) ∧
    ((getAdviceClick { prompt := "What is a lien?", context := "", isConfidential := true }
        (.thrown "boom") stSample).1.getAdviceBtn
      = { disabled := false, innerHTML := .busy "Get Advice" }) ∧
    (getAdviceClick { prompt := "What is a lien?", context := "", isConfidential := true }
        (.ok "success" "Yes.") stSample).1.getAdviceBtn.innerHTML
      ≠ stSample.getAdviceBtn.innerHTML := by
  refine ⟨rfl, rfl, by decide⟩

/-- C2: the claim says the document id
`advice_ContractReview_1700000000000000000` yields the label `ContractReview`
and the nanosecond timestamp converted to milliseconds, without throwing.
The split does yield `ContractReview` and `1700000000000000000`, but the date
expression divides that String by the BigInt `1000000n`, which throws a
TypeError, so the renderer aborts and the list shows the error placeholder. -/
theorem documentList_render_throws :
    renderDocEntry "advice_ContractReview_1700000000000000000" "Sample contract text".toList
      = .error "TypeError: Cannot mix BigInt and other types, use explicit conversions" ∧
    (jsSplit "advice_ContractReview_1700000000000000000" '_').getD 1 "" = "ContractReview" ∧
    (jsSplit "advice_ContractReview_1700000000000000000" '_').getD 2 "" = "1700000000000000000" ∧
    loadUserDocuments [("advice_ContractReview_1700000000000000000", "Sample contract text".toList)]
      = .errorPlaceholder := by
  refine ⟨rfl, by decide, by decide, rfl⟩

/-- C3: the claim says a profile with an absent name renders the default name
`User`, the stats string and the converted date, without throwing.  The very
first statement, `profile.name.unwrap_or('User')`, calls a method that does
not exist on the array the candid `opt` decodes to, so it throws a TypeError
and every display keeps its previous content. -/
theorem profile_absent_name_throws :
    renderUserProfile { name := [], document_count := 5, last_active := 1700000000000000000 } ""
      = .error "TypeError: profile.name.unwrap_or is not a function" ∧
    loadUserProfile { name := [], document_count := 5, last_active := 1700000000000000000 }
        viewBefore
      = viewBefore := by
  refine ⟨rfl, by decide⟩

/-- C4 counterexample: with the user already authenticated on a local network
and the root-key fetch rejecting, the bootstrap does show the danger alert,
but `handleAuthenticated` hid the pre-authentication view before the fetch,
so the application does NOT remain in the pre-authentication state as the
claim requires. -/
theorem rootkey_failure_leaves_authenticated_view :
    (initII scRootKeyFail bootState0).1.authSectionHidden = true ∧
    Effect.alert "Error initializing authentication. Please try again." "danger"
      ∈ (initII scRootKeyFail bootState0).2 := by
  refine ⟨rfl, by decide⟩

/-- C4 (amended): an exception while creating the provider agent is surfaced
as the danger alert with the whole state — in particular the
pre-authentication view — untouched; an exception from the root-key fetch in
the already-authenticated startup path is surfaced as the danger alert, but
only after the pre-authentication view has been hidden and the app content
revealed; and an exception thrown by `login()` inside the installed login
click handler is not caught anywhere, so no notification is shown there (the
state is unchanged). -/
theorem bootstrap_error_paths (sc : BootScenario) (st : BootState)
    (lg : Bool) (net : String) (rkt : Bool) :
    (sc.createAgentThrows = true →
      initII sc st = (st,
        [.consoleError "Error initializing Internet Identity:",
         .alert "Error initializing authentication. Please try again." "danger"])) ∧
    (sc.createAgentThrows = false → sc.isAuthenticated = true →
      sc.network ≠ "ic" → sc.rootKeyThrows = true →
      (initII sc st).1.authSectionHidden = true ∧
      (initII sc st).1.appContentHidden = false ∧
      Effect.alert "Error initializing authentication. Please try again." "danger"
        ∈ (initII sc st).2) ∧
    loginClick true lg net rkt st = (st, []) := by
  refine ⟨?_, ?_, ?_⟩
  · intro h
    simp [initII, h]
  · intro h1 h2 h3 h4
    simp [initII, handleAuthenticated, h1, h2, h3, h4]
  · simp [loginClick]

/-- C4 witness: the amended theorem instantiated at the agent-creation
failure and root-key failure scenarios. -/
theorem bootstrap_error_paths_witness :
    initII scAgentFail bootState0
      = (bootState0,
        [.consoleError "Error initializing Internet Identity:",
         .alert "Error initializing authentication. Please try again." "danger"]) ∧
    (initII scRootKeyFail bootState0).1.appContentHidden = false := by
  refine ⟨(bootstrap_error_paths scAgentFail bootState0 false "local" false).1 rfl, ?_⟩
  exact ((bootstrap_error_paths scRootKeyFail bootState0 false "local" false).2.1
    rfl rfl (by decide) rfl).2.1

/-- C5: during `handleAuthenticated`, the root verification key is fetched if
and only if the configured `DFX_NETWORK` is not the production network
`ic` — regardless of whether that fetch then succeeds or rejects, and for
every starting view state. -/
theorem fetchRootKey_iff_not_production (network : String) (rootKeyThrows : Bool)
    (st : BootState) :
    Effect.fetchRootKey ∈ (handleAuthenticated network rootKeyThrows st).effects
      ↔ network ≠ "ic" := by
  by_cases h : network = "ic"
  · subst h
    simp [handleAuthenticated]
  · cases rootKeyThrows <;> simp [handleAuthenticated, h]

/-- C6: an empty prompt makes both the advice and the document handlers show
the warning alert and return with the state — in particular the still-enabled
trigger button — completely unchanged, before any remote call. -/
theorem empty_prompt_no_call (inpA : AdviceInputs) (oA : AdviceOutcome)
    (inpD : DocInputs) (oD : DocOutcome) (st : AppState)
    (hA : inpA.prompt = "") (hD : inpD.prompt = "") :
    getAdviceClick inpA oA st
      = (st, [.alert "Please enter your legal question" "warning"]) ∧
    generateDocClick inpD oD st
      = (st, [.alert "Please describe the document you need" "warning"]) := by
  constructor
  · unfold getAdviceClick
    rw [if_pos hA]
  · unfold generateDocClick
    rw [if_pos hD]

/-- C6 witness: the theorem at concrete empty-prompt inputs. -/
theorem empty_prompt_no_call_witness :
    getAdviceClick { prompt := "", context := "ctx", isConfidential := true }
        (.thrown "x") stSample
      = (stSample, [.alert "Please enter your legal question" "warning"]) ∧
    generateDocClick { docType := "nda", prompt := "", context := "", isConfidential := false }
        (.thrown "x") stSample
      = (stSample, [.alert "Please describe the document you need" "warning"]) :=
  empty_prompt_no_call
    { prompt := "", context := "ctx", isConfidential := true } (.thrown "x")
    { docType := "nda", prompt := "", context := "", isConfidential := false } (.thrown "x")
    stSample rfl rfl

/-- C7: every non-empty-prompt invocation of the advice command issues
exactly one `generate_legal_advice` call, whose request has the prompt, a
null `document_type`, `context` null exactly when the context field is blank,
and `is_confidential` equal to the checkbox state — on every outcome. -/
theorem advice_request_shape (inp : AdviceInputs) (outcome : AdviceOutcome)
    (st : AppState) (h : inp.prompt ≠ "") :
    (getAdviceClick inp outcome st).2.filter Effect.isAdviceCall
      = [Effect.generate_legal_advice
          { prompt := inp.prompt
            document_type := none
            context := if inp.context = "" then none else some inp.context
            is_confidential := inp.isConfidential }] := by
  unfold getAdviceClick
  rw [if_neg h]
  cases outcome with
  | ok status resp =>
    by_cases hs : status = "success" <;> simp [hs, Effect.isAdviceCall]
  | thrown msg => rfl

/-- C7 witness: a concrete non-empty prompt with a blank context field and
the checkbox set issues exactly the one expected advice call. -/
theorem advice_request_shape_witness :
    (getAdviceClick { prompt := "What is a lien?", context := "", isConfidential := true }
        (.ok "success" "Yes.") stSample).2.filter Effect.isAdviceCall
      = [Effect.generate_legal_advice
          { prompt := "What is a lien?", document_type := none,
            context := none, is_confidential := true }] := by
  have h := advice_request_shape
    { prompt := "What is a lien?", context := "", isConfidential := true }
    (.ok "success" "Yes.") stSample (by decide)
  rw [h]
  rfl

/-- C8: every non-empty-prompt invocation of the advice or the
document-generation command re-fetches the user profile exactly once, whether
the call succeeds, returns a non-success tag, or throws. -/
theorem profile_refetch_once (inpA : AdviceInputs) (oA : AdviceOutcome)
    (inpD : DocInputs) (oD : DocOutcome) (stA stD : AppState)
    (hA : inpA.prompt ≠ "") (hD : inpD.prompt ≠ "") :
    (getAdviceClick inpA oA stA).2.count Effect.get_user_profile = 1 ∧
    (generateDocClick inpD oD stD).2.count Effect.get_user_profile = 1 := by
  constructor
  · unfold getAdviceClick
    rw [if_neg hA]
    cases oA with
    | ok status resp =>
      by_cases hs : status = "success" <;> simp [hs]
    | thrown msg => rfl
  · unfold generateDocClick
    rw [if_neg hD]
    cases oD with
    | ok status doc =>
      by_cases hs : status = "success" ∧ doc ≠ "" <;> simp [hs]
    | thrown msg => rfl

/-- C8 witness: concrete advice and document invocations (one thrown, one a
tagged failure) each fetch the profile exactly once. -/
theorem profile_refetch_once_witness :
    (getAdviceClick { prompt := "q", context := "", isConfidential := false }
        (.thrown "") stSample).2.count Effect.get_user_profile = 1 ∧
    (generateDocClick { docType := "nda", prompt := "q", context := "", isConfidential := false }
        (.ok "error" "") stSample).2.count Effect.get_user_profile = 1 :=
  profile_refetch_once
    { prompt := "q", context := "", isConfidential := false } (.thrown "")
    { docType := "nda", prompt := "q", context := "", isConfidential := false } (.ok "error" "")
    stSample stSample (by decide) (by decide)

/-- C9: the document preview is the content itself when it has at most 100
characters, and exactly the first 100 characters followed by the three-dot
ellipsis (103 characters in all) when it is longer. -/
theorem docPreview_truncation (c : List Char) :
    (c.length ≤ 100 → docPreview c = c) ∧
    (100 < c.length →
      docPreview c = c.take 100 ++ "...".toList ∧
      (docPreview c).length = 103) := by
  constructor
  · intro h
    unfold docPreview
    rw [if_neg (by omega)]
  · intro h
    have hif : docPreview c = c.take 100 ++ "...".toList := by
      unfold docPreview
      rw [if_pos h]
    refine ⟨hif, ?_⟩
    rw [hif]
    have h3 : ("...".toList).length = 3 := rfl
    simp [List.length_append, List.length_take, h3]
    omega

set_option maxRecDepth 4000 in
/-- C9 witness: content of length 150 renders as the first 100 characters
plus the ellipsis; content of length 50 renders unchanged. -/
theorem docPreview_truncation_witness :
    docPreview (List.replicate 150 'a') = List.replicate 100 'a' ++ "...".toList ∧
    docPreview (List.replicate 50 'a') = List.replicate 50 'a' := by
  constructor
  · have h := (docPreview_truncation (List.replicate 150 'a')).2
      (by rw [List.length_replicate]; omega)
    rw [h.1]
    decide
  · exact (docPreview_truncation (List.replicate 50 'a')).1
      (by rw [List.length_replicate]; omega)

/-- C10: with no current document, clicking download or save returns
immediately: no remote call, no alert of any kind, and the state is returned
unchanged — unlike the other validation failures, which emit a warning
alert. -/
theorem no_document_silent_noop (today : String) (st : AppState)
    (h : st.currentDocument = none) :
    downloadDocClick today st = (st, []) ∧ saveDocClick st = (st, []) := by
  constructor
  · unfold downloadDocClick
    rw [h]
  · unfold saveDocClick
    rw [h]

/-- C10 witness: the theorem at the idle sample state, which has no current
document. -/
theorem no_document_silent_noop_witness :
    downloadDocClick "2026-10-11" stSample = (stSample, []) ∧
    saveDocClick stSample = (stSample, []) :=
  no_document_silent_noop "2026-10-11" stSample rfl

end Wakili
